import Mathlib

/-!
Verification of the walter-webhook service (src/app.py).

The file shallowly embeds the Python source into Lean. Pure helpers become
Lean functions over lists of characters; the effectful calls (OpenAI client,
requests.get, the wall clock) are modeled by an explicit environment record
whose operations return Except values, and every outbound interaction is
recorded in an event trace so that claims about which calls happen can be
stated. Machine strings are Lean Strings; the character classes of the
Python regular expressions are modeled over ASCII, which covers the data
the service handles.
-/

namespace Walter

/-! Python string primitives, restricted to ASCII semantics. -/

/-- Model of the Python whitespace class backslash-s over ASCII. -/
def pyIsSpace (c : Char) : Bool :=
  c == ' ' || c == '\t' || c == '\n' || c == '\r' || c == '\x0B' || c == '\x0C'

/-- Model of the Python word class backslash-w over ASCII: alphanumerics and underscore. -/
def isWordChar (c : Char) : Bool := c.isAlphanum || c == '_'

/-- Python str.strip with no arguments: drop leading and trailing whitespace. -/
def pyStrip (s : String) : String :=
  String.mk (((s.data.dropWhile pyIsSpace).reverse.dropWhile pyIsSpace).reverse)

/-- Python str.lower over ASCII. -/
def pyLower (s : String) : String := String.mk (s.data.map Char.toLower)

/-- Python str.upper over ASCII. -/
def pyUpper (s : String) : String := String.mk (s.data.map Char.toUpper)

/-- Helper for pyTitle: uppercase each alphabetic character that follows a non-alphabetic one. -/
def pyTitleAux : Bool → List Char → List Char
  | _, [] => []
  | prevAlpha, c :: rest =>
    (if c.isAlpha && !prevAlpha then c.toUpper else c) :: pyTitleAux c.isAlpha rest

/-- Python str.title over ASCII. -/
def pyTitle (s : String) : String := String.mk (pyTitleAux false s.data)

/-- Python str.isupper over ASCII: at least one cased character and no lowercase one. -/
def pyIsUpper (s : String) : Bool :=
  s.data.any Char.isAlpha && s.data.all (fun c => !c.isAlpha || c.isUpper)

/-- Substring test on character lists, modeling the Python membership operator on str. -/
def containsSub (needle : List Char) : List Char → Bool
  | [] => needle.isEmpty
  | c :: rest => needle.isPrefixOf (c :: rest) || containsSub needle rest

/-- Python substring membership test: needle in hay. -/
def pyIn (needle hay : String) : Bool := containsSub needle.data hay.data

/-- Python or-chain over optional string fields ending in an empty-string default:
the first truthy value wins, where None and the empty string are falsy. -/
def firstTruthy : List (Option String) → String
  | [] => ""
  | o :: rest =>
    match o with
    | some s => if s != "" then s else firstTruthy rest
    | none => firstTruthy rest

/-- Python truthiness of an optional string: present and nonempty. -/
def optTruthy : Option String → Bool
  | none => false
  | some s => s != ""

/-!
A tiny matcher covering exactly the regular-expression fragments used in
src/app.py. Every pattern there is an alternation of phrases, each phrase a
sequence of literal words, single-character classes (backslash-d), and the
optional class [space-or-hyphen]? , the whole match wrapped in word
boundaries. All phrases start and end with word characters, so the leading
boundary holds iff the previous character is absent or not a word character,
and the trailing boundary is checked inside the matcher (with backtracking
through the optional classes, as the Python engine does).
-/

/-- One token of a pattern phrase. -/
inductive Tok where
  | lit : List Char → Tok
  | cls : (Char → Bool) → Tok
  | optSH : Tok

/-- Match a phrase at the head of the input, including the trailing word
boundary, returning the number of characters consumed. Greedy with
backtracking on the optional space-or-hyphen class, like the Python engine. -/
def matchLen : List Tok → List Char → Option Nat
  | [], [] => some 0
  | [], c :: _ => if isWordChar c then none else some 0
  | .lit l :: ts, s =>
    if l.isPrefixOf s then (matchLen ts (s.drop l.length)).map (· + l.length) else none
  | .cls p :: ts, s =>
    match s with
    | [] => none
    | c :: rest => if p c then (matchLen ts rest).map (· + 1) else none
  | .optSH :: ts, s =>
    match s with
    | [] => matchLen ts []
    | c :: rest =>
      if pyIsSpace c || c == '-' then
        match matchLen ts rest with
        | some n => some (n + 1)
        | none => matchLen ts (c :: rest)
      else matchLen ts (c :: rest)

/-- First alternative that matches at the head of the input, in pattern order,
as the Python engine tries alternatives left to right. -/
def matchAlts : List (List Tok) → List Char → Option Nat
  | [], _ => none
  | a :: rest, s =>
    match matchLen a s with
    | some n => some n
    | none => matchAlts rest s

/-- Scan for a match anywhere, tracking whether the previous character is a
word character for the leading word boundary. -/
def searchAux (alts : List (List Tok)) : Bool → List Char → Bool
  | _, [] => false
  | prevW, c :: rest =>
    (!prevW && (matchAlts alts (c :: rest)).isSome) || searchAux alts (isWordChar c) rest

/-- re.search over the supported pattern shape: does any position match. -/
def reSearch (alts : List (List Tok)) (s : String) : Bool := searchAux alts false s.data

/-- Scan for the first match and return the matched characters. -/
def findFirstAux (alts : List (List Tok)) : Bool → List Char → Option (List Char)
  | _, [] => none
  | prevW, c :: rest =>
    if !prevW then
      match matchAlts alts (c :: rest) with
      | some n => some ((c :: rest).take n)
      | none => findFirstAux alts (isWordChar c) rest
    else findFirstAux alts (isWordChar c) rest

/-- re.sub with a single-space replacement, scanning left to right over
non-overlapping matches. The fuel argument equals the input length: every
step consumes at least one character and one unit of fuel, so the fuel-zero
case is reached only on the empty remainder. After a match the previous
character is the last matched one, always a word character for the patterns
used here. -/
def substFuel (alts : List (List Tok)) : Nat → Bool → List Char → List Char
  | 0, _, l => l
  | _ + 1, _, [] => []
  | fuel + 1, prevW, c :: rest =>
    if !prevW then
      match matchAlts alts (c :: rest) with
      | some n => ' ' :: substFuel alts fuel true (rest.drop (n - 1))
      | none => c :: substFuel alts fuel (isWordChar c) rest
    else c :: substFuel alts fuel (isWordChar c) rest

/-- re.sub of the pattern by a single space over a string. -/
def reSub (alts : List (List Tok)) (s : String) : String :=
  String.mk (substFuel alts s.data.length false s.data)

/-- Helper for the whitespace-collapsing re.sub: each maximal whitespace run
becomes one space. -/
def collapseAux : Bool → List Char → List Char
  | _, [] => []
  | prevSp, c :: rest =>
    if pyIsSpace c then
      if prevSp then collapseAux true rest else ' ' :: collapseAux true rest
    else c :: collapseAux false rest

/-- re.sub of one-or-more whitespace by a single space. -/
def collapseWs (s : String) : String := String.mk (collapseAux false s.data)

/-! The keyword tables of src/app.py. -/

/-- WIRING_KEYWORDS from the source. -/
def WIRING_KEYWORDS : List String :=
  ["wiring diagram", "wiring", "wire colors", "wire colour", "wire info",
   "install wiring", "starter wire", "ignition wire", "relay", "diagram"]

/-- KNOWN_MAKES from the source, in source order. -/
def KNOWN_MAKES : List String :=
  ["acura","alfa romeo","audi","bmw","buick","cadillac","chevrolet","chrysler",
   "dodge","ford","gmc","honda","hyundai","infiniti","jaguar","jeep","kia",
   "land rover","lexus","lincoln","mazda","mercedes","mini","mitsubishi",
   "nissan","porsche","ram","subaru","tesla","toyota","volkswagen","volvo"]

/-- Stable insertion by descending length: an element goes before the first
strictly shorter one and stays after earlier elements of equal length. -/
def insertByLenDesc (x : String) : List String → List String
  | [] => [x]
  | y :: ys => if y.length ≤ x.length then x :: y :: ys else y :: insertByLenDesc x ys

/-- Model of the Python stable sorted with key len and reverse true. -/
def sortByLenDesc : List String → List String
  | [] => []
  | x :: xs => insertByLenDesc x (sortByLenDesc xs)

/-- The make list sorted by descending length, as computed in the source. -/
def sortedMakes : List String := sortByLenDesc KNOWN_MAKES

/-- is_wiring_request from the source: any wiring keyword is a substring of
the lowercased text. -/
def is_wiring_request (text : String) : Bool :=
  WIRING_KEYWORDS.any (fun k => pyIn k (pyLower text))

/-! The concrete patterns of extract_year_make_model_ignition. -/

/-- Phrase of two words separated by an optional space or hyphen. -/
def phrase2 (a b : String) : List Tok := [.lit a.data, .optSH, .lit b.data]

/-- Phrase of three words separated by optional spaces or hyphens. -/
def phrase3 (a b c : String) : List Tok :=
  [.lit a.data, .optSH, .lit b.data, .optSH, .lit c.data]

/-- The year pattern: 19 or 20 followed by two digits, in that alternative order. -/
def yearAlts : List (List Tok) :=
  [[.lit "19".data, .cls Char.isDigit, .cls Char.isDigit],
   [.lit "20".data, .cls Char.isDigit, .cls Char.isDigit]]

/-- The push-to-start ignition keyword family, in source order. -/
def pushAlts : List (List Tok) :=
  [phrase3 "push" "to" "start", phrase2 "push" "button",
   phrase2 "smart" "key", [Tok.lit "proximity".data]]

/-- The standard-key ignition keyword family, in source order. -/
def stdAlts : List (List Tok) :=
  [phrase2 "standard" "key", phrase2 "regular" "key",
   phrase2 "key" "start", phrase2 "turn" "key"]

/-- The stop-word alternation removed from the model text, in source order. -/
def stopAlts : List (List Tok) :=
  (["wiring","diagram","wire","colors","colour","info","install",
    "please","need","for","a","an","the"].map (fun w => [Tok.lit w.data]))

/-- The combined ignition-phrase alternation removed from the model text,
in source order. -/
def ignAllAlts : List (List Tok) := pushAlts ++ stdAlts

/-! The entity extractor. -/

/-- The result record of extract_year_make_model_ignition. -/
structure VehicleAttrs where
  year : Option String
  make : Option String
  model : Option String
  ignition : Option String
deriving DecidableEq, Repr

/-- First four-digit year token 19xx or 20xx, with word boundaries. -/
def findYear (low : String) : Option String :=
  (findFirstAux yearAlts false low.data).map String.mk

/-- Ignition classification from explicit keyword families. -/
def findIgnition (low : String) : Option String :=
  if reSearch pushAlts low then some "Push to Start"
  else if reSearch stdAlts low then some "Standard Key"
  else none

/-- First known make found, trying longer names first as the source does. -/
def findMake (low : String) : Option String :=
  sortedMakes.find? (fun mk => reSearch [[Tok.lit mk.data]] low)

/-- Display form of a found make: uppercase for short names, title case otherwise. -/
def displayMake (fm : String) : String :=
  if fm.length ≤ 4 then pyUpper fm else pyTitle fm

/-- Final model value from the stripped remainder text: empty means absent,
and an all-uppercase remainder is uppercased (a no-op on lowercased input). -/
def modelFromTmp (tmp : String) : Option String :=
  if tmp != "" then some (if pyIsUpper tmp then pyUpper tmp else tmp) else none

/-- Model remainder when both year and make were found: remove the year, the
found make, the stop words and the ignition phrases, then collapse whitespace. -/
def modelWithMake (low year foundMake : String) : Option String :=
  let tmp := reSub [[Tok.lit year.data]] low
  let tmp := reSub [[Tok.lit foundMake.data]] tmp
  let tmp := reSub stopAlts tmp
  let tmp := reSub ignAllAlts tmp
  let tmp := pyStrip (collapseWs tmp)
  modelFromTmp tmp

/-- Model remainder when a year was found but no make: remove the year and the
stop words, then collapse whitespace. -/
def modelNoMake (low year : String) : Option String :=
  let tmp := reSub [[Tok.lit year.data]] low
  let tmp := reSub stopAlts tmp
  let tmp := pyStrip (collapseWs tmp)
  modelFromTmp tmp

/-- extract_year_make_model_ignition from the source. -/
def extract_year_make_model_ignition (text : String) : VehicleAttrs :=
  let raw := pyStrip text
  let low := pyLower raw
  let year := findYear low
  let ignition := findIgnition low
  let found_make := findMake low
  let make := found_make.map displayMake
  let model :=
    if optTruthy year && optTruthy make then
      modelWithMake low (year.getD "") (found_make.getD "")
    else if optTruthy year && !optTruthy make then
      modelNoMake low (year.getD "")
    else none
  ⟨year, make, model, ignition⟩

/-! JSON values and the Python json.dumps encoding. -/

/-- JSON values as returned by the lookup service. -/
inductive Json where
  | null
  | bool (b : Bool)
  | num (n : Int)
  | str (s : String)
  | arr (xs : List Json)
  | obj (fields : List (String × Json))

/-- Hexadecimal digit for low control-character escapes. -/
def hexDigit (n : Nat) : Char := Nat.digitChar (n % 16)

/-- Escape one character as the Python json encoder does. -/
def escChar (c : Char) : String :=
  if c == '"' then "\\\""
  else if c == '\\' then "\\\\"
  else if c == '\n' then "\\n"
  else if c == '\t' then "\\t"
  else if c == '\r' then "\\r"
  else if c == '\x08' then "\\b"
  else if c == '\x0C' then "\\f"
  else if c.toNat < 0x20 then
    "\\u" ++ String.mk [hexDigit (c.toNat / 4096), hexDigit (c.toNat / 256),
                        hexDigit (c.toNat / 16), hexDigit c.toNat]
  else String.singleton c

/-- Quote a string as the Python json encoder does with ensure_ascii false. -/
def pyJsonQuote (s : String) : String :=
  "\"" ++ String.join (s.data.map escChar) ++ "\""

mutual

/-- Python json.dumps with default separators and ensure_ascii false. -/
def pyJsonDumps : Json → String
  | .null => "null"
  | .bool b => if b then "true" else "false"
  | .num n => toString n
  | .str s => pyJsonQuote s
  | .arr xs => "[" ++ dumpsArr xs ++ "]"
  | .obj fs => "\x7b" ++ dumpsObj fs ++ "\x7d"

/-- Comma-separated encoding of a JSON array body. -/
def dumpsArr : List Json → String
  | [] => ""
  | [x] => pyJsonDumps x
  | x :: y :: rest => pyJsonDumps x ++ ", " ++ dumpsArr (y :: rest)

/-- Comma-separated encoding of a JSON object body. -/
def dumpsObj : List (String × Json) → String
  | [] => ""
  | [(k, v)] => pyJsonQuote k ++ ": " ++ pyJsonDumps v
  | (k, v) :: y :: rest => pyJsonQuote k ++ ": " ++ pyJsonDumps v ++ ", " ++ dumpsObj (y :: rest)

end

/-! The environment: process configuration and the external collaborators. -/

/-- Environment-driven configuration. The two timing options are modeled in
abstract ticks (the source default of 0.6 and 12 seconds corresponds to 6 and
120 tenths of a second). -/
structure Config where
  OPENAI_API_KEY : String
  OPENAI_ASSISTANT_ID : String
  CREATOR_BASE_URL : String
  CREATOR_PUBLIC_KEY : String
  RUN_POLL_TICKS : Nat
  RUN_MAX_WAIT_TICKS : Nat
deriving DecidableEq, Repr

/-- One content block of a thread message: the type tag and, for text blocks,
the text value. -/
structure ContentPart where
  ctype : String
  textValue : String
deriving DecidableEq, Repr

/-- One thread message as returned by the list-messages call. -/
structure Msg where
  role : String
  content : List ContentPart
deriving DecidableEq, Repr

/-- Trace events recording every outbound interaction of one webhook call. -/
inductive Event where
  | threadCreated (t : Nat)
  | messageCreated (t : Nat) (content : String)
  | runCreated (t : Nat) (r : Nat)
  | httpGetAttempt (url : String) (params : List (String × String))
  | messagesListed (t : Nat)
deriving DecidableEq, Repr

/-- The external world: the wall clock, the lookup service, and the assistant
service. Each fallible operation returns Except; the run-status retrieval is
indexed by the poll attempt number, so a trace of remote statuses is an input.
The list-messages operation returns the newest-first message page the service
would send for order desc with limit 10. -/
structure Env where
  now : String
  lookupGet : String → List (String × String) → Except String Json
  createThread : Except String Nat
  createMessage : Nat → String → Except String Unit
  createRun : Nat → Except String Nat
  retrieveRun : Nat → Nat → Nat → Except String String
  listMessages : Nat → Except String (List Msg)

/-- current_time_cst_iso from the source: a wall-clock read. -/
def current_time_cst_iso (env : Env) : String := env.now

/-! The lookup collaborator client. -/

/-- The query parameters sent to the Creator lookup endpoint, in source
order, with the ignition parameter added only when truthy. -/
def creatorParams (cfg : Config) (year make model : String) (ignition : Option String) :
    List (String × String) :=
  [("publickey", cfg.CREATOR_PUBLIC_KEY), ("year", year), ("make", make), ("model", model)]
    ++ (if optTruthy ignition then [("ignition", ignition.getD "")] else [])

/-- creator_lookup from the source: one outbound GET; any error is caught and
turned into the safe fallback structure carrying the diagnostic. -/
def creator_lookup (cfg : Config) (env : Env) (year make model : String)
    (ignition : Option String) : Json × List Event :=
  let params := creatorParams cfg year make model ignition
  (match env.lookupGet cfg.CREATOR_BASE_URL params with
   | .ok j => j
   | .error e =>
     Json.obj [("code", Json.num 5000),
               ("result", Json.obj [("count", Json.num 0),
                                    ("matches", Json.arr []),
                                    ("error", Json.str e)])],
   [Event.httpGetAttempt cfg.CREATOR_BASE_URL params])

/-! The injected-context builder. -/

/-- build_injected_context from the source. -/
def build_injected_context (cfg : Config) (env : Env) (user_text : String) :
    String × List Event :=
  let ct := current_time_cst_iso env
  let info := extract_year_make_model_ignition user_text
  if !is_wiring_request user_text then
    ("current_time_cst: " ++ ct ++ "\n\nUSER_MESSAGE:\n" ++ user_text, [])
  else
    let year := info.year
    let make := info.make
    let model := info.model
    let ignition := info.ignition
    if !optTruthy year || !optTruthy make || !optTruthy model then
      ("current_time_cst: " ++ ct ++ "\n" ++
       "wiring_request: true\n" ++
       "parsed_year: " ++ year.getD "" ++ "\n" ++
       "parsed_make: " ++ make.getD "" ++ "\n" ++
       "parsed_model: " ++ model.getD "" ++ "\n" ++
       "parsed_ignition: " ++ ignition.getD "" ++ "\n\n" ++
       "wiring_lookup_result: null\n\n" ++
       "USER_MESSAGE:\n" ++ user_text, [])
    else
      let lk := creator_lookup cfg env (year.getD "") (make.getD "") (model.getD "") ignition
      ("current_time_cst: " ++ ct ++ "\n" ++
       "wiring_request: true\n" ++
       "parsed_year: " ++ year.getD "" ++ "\n" ++
       "parsed_make: " ++ make.getD "" ++ "\n" ++
       "parsed_model: " ++ model.getD "" ++ "\n" ++
       "parsed_ignition: " ++ ignition.getD "" ++ "\n\n" ++
       "wiring_lookup_result (json):\n" ++ pyJsonDumps lk.1 ++ "\n\n" ++
       "USER_MESSAGE:\n" ++ user_text, lk.2)

/-! The run orchestrator. -/

/-- Terminal run statuses checked by the poll loop, as in the source tuple. -/
def isTerminalStatus (s : String) : Bool :=
  s == "completed" || s == "failed" || s == "cancelled" || s == "expired"

/-- Outcome of the poll loop. -/
inductive LoopResult where
  | terminal (s : String)
  | timedOut
  | errored (e : String)
deriving DecidableEq, Repr

/-- The poll loop body. Each iteration retrieves the status (an exception
there propagates), breaks on a terminal status, and otherwise returns the
timeout outcome once the elapsed time exceeds the budget. Elapsed time is
modeled as the poll index times the poll interval, since each iteration
sleeps one interval. The fuel starts above the largest reachable index, so
the fuel-zero fallback of timing out is only a guard. -/
def pollLoopAux (retrieve : Nat → Except String String) (poll maxWait : Nat) :
    Nat → Nat → LoopResult
  | _, 0 => .timedOut
  | n, fuel + 1 =>
    match retrieve n with
    | .error e => .errored e
    | .ok s =>
      if isTerminalStatus s then .terminal s
      else if n * poll > maxWait then .timedOut
      else pollLoopAux retrieve poll maxWait (n + 1) fuel

/-- The poll loop of run_walter, started at index zero with sufficient fuel. -/
def pollLoop (retrieve : Nat → Except String String) (poll maxWait : Nat) : LoopResult :=
  pollLoopAux retrieve poll maxWait 0 (maxWait + 2)

/-- The fixed fallback reply when no assistant text is found. -/
def fallbackReply : String := "How can we assist you today?"

/-- Reply extraction from the newest-first message page: the first assistant
message wins; its text-typed blocks are joined by newlines and stripped; an
empty result or no assistant message yields the fixed fallback. -/
def lastAssistantReply : List Msg → String
  | [] => fallbackReply
  | m :: rest =>
    if m.role == "assistant" then
      let parts := (m.content.filter (fun c => c.ctype == "text")).map (fun c => c.textValue)
      let text_out := pyStrip (String.intercalate "\n" parts)
      if text_out == "" then fallbackReply else text_out
    else lastAssistantReply rest

/-- run_walter from the source: configuration check, thread and message and
run creation (exceptions propagate), the poll loop, and reply extraction. -/
def run_walter (cfg : Config) (env : Env) (message_text : String) :
    Except String String × List Event :=
  if cfg.OPENAI_API_KEY = "" ∨ cfg.OPENAI_ASSISTANT_ID = "" then
    (.ok "Configuration error: missing OPENAI_API_KEY or OPENAI_ASSISTANT_ID.", [])
  else
    match env.createThread with
    | .error e => (.error e, [])
    | .ok tid =>
      match env.createMessage tid message_text with
      | .error e => (.error e, [.threadCreated tid])
      | .ok _ =>
        match env.createRun tid with
        | .error e => (.error e, [.threadCreated tid, .messageCreated tid message_text])
        | .ok rid =>
          let evs := [Event.threadCreated tid, .messageCreated tid message_text,
                      .runCreated tid rid]
          match pollLoop (env.retrieveRun tid rid) cfg.RUN_POLL_TICKS cfg.RUN_MAX_WAIT_TICKS with
          | .errored e => (.error e, evs)
          | .timedOut => (.ok "We’re sorry—something took too long. Please try again.", evs)
          | .terminal s =>
            if s ≠ "completed" then
              (.ok "We’re sorry—something went wrong. Please try again.", evs)
            else
              match env.listMessages tid with
              | .error e => (.error e, evs)
              | .ok msgs => (.ok (lastAssistantReply msgs), evs ++ [.messagesListed tid])

/-! The webhook handler. -/

/-- The request body as the handler reads it: the top-level string fields and
the nested data object when present and a dictionary. -/
structure Payload where
  top : List (String × String)
  data : Option (List (String × String))

/-- The HTTP response produced by jsonify: status code and JSON body fields. -/
structure HttpResponse where
  status : Nat
  body : List (String × String)
deriving DecidableEq, Repr

/-- The question-extraction part of salesiq_webhook: the candidate field
chain, the nested data fallback, and the final strip. -/
def extractedQuestion (payload : Payload) : String :=
  let ut0 := firstTruthy [payload.top.lookup "message", payload.top.lookup "text",
                          payload.top.lookup "visitor_message", payload.top.lookup "question",
                          payload.top.lookup "query"]
  let ut1 :=
    if ut0 = "" then
      match payload.data with
      | some d => firstTruthy [d.lookup "message", d.lookup "text"]
      | none => ut0
    else ut0
  pyStrip ut1

/-- salesiq_webhook from the source: normalize the question, answer the
absent-question case locally, otherwise build the injected context and run
the assistant; the result of run_walter is returned under the reply field,
and any exception from run_walter propagates. -/
def salesiq_webhook (cfg : Config) (env : Env) (payload : Payload) :
    Except String HttpResponse × List Event :=
  let user_text := extractedQuestion payload
  if user_text = "" then
    (.ok ⟨200, [("reply", fallbackReply)]⟩, [])
  else
    let built := build_injected_context cfg env user_text
    match run_walter cfg env built.1 with
    | (.error e, ev2) => (.error e, built.2 ++ ev2)
    | (.ok a, ev2) => (.ok ⟨200, [("reply", a)]⟩, built.2 ++ ev2)

/-- Thread identifiers to which user messages were submitted in a trace. -/
def msgThreads (evs : List Event) : List Nat :=
  evs.filterMap (fun e => match e with | .messageCreated t _ => some t | _ => none)

/-! Concrete fixtures used by witnesses and counterexamples. -/

/-- A fully configured process, with the default poll timing in ticks. -/
def cfgOk : Config :=
  ⟨"k", "a", "https://example.test/lookup", "pk", 6, 120⟩

/-- A fully configured process with a small wait budget, for timeout runs. -/
def cfgFast : Config :=
  ⟨"k", "a", "https://example.test/lookup", "pk", 6, 12⟩

/-- A one-message assistant page. -/
def msgsHello : List Msg := [⟨"assistant", [⟨"text", "Hello!"⟩]⟩]

/-- A healthy world: every assistant operation succeeds, the run completes at
once, and the lookup service is unreachable. -/
def envOk : Env :=
  ⟨"T0", fun _ _ => .error "offline", .ok 0, fun _ _ => .ok (), fun _ => .ok 0,
   fun _ _ _ => .ok "completed", fun _ => .ok msgsHello⟩

/-- The healthy world except that creating a thread raises. -/
def envBoom : Env := { envOk with createThread := .error "boom" }

/-- The healthy world except that the created thread has identifier one,
as on a second create-thread call to the remote service. -/
def envThread1 : Env := { envOk with createThread := .ok 1 }

/-- The healthy world except that the run never leaves the in-progress state. -/
def envNever : Env := { envOk with retrieveRun := fun _ _ _ => .ok "inProgress" }

/-- The healthy world except that the run fails immediately. -/
def envFailed : Env := { envOk with retrieveRun := fun _ _ _ => .ok "failed" }

/-- A payload carrying the question under the message field. -/
def payloadHi : Payload := ⟨[("message", "hi")], none⟩

/-- An empty payload: no candidate field and no nested data object. -/
def payloadEmpty : Payload := ⟨[], none⟩

/-! Poll-loop lemmas. -/

/-- When every status retrieval succeeds the poll loop never reports an error. -/
theorem pollLoopAux_ne_errored (retrieve : Nat → Except String String) (poll maxWait : Nat)
    (h : ∀ n, ∃ s, retrieve n = .ok s) :
    ∀ fuel n e, pollLoopAux retrieve poll maxWait n fuel ≠ LoopResult.errored e := by
  intro fuel
  induction fuel with
  | zero => intro n e; simp [pollLoopAux]
  | succ fuel ih =>
    intro n e
    obtain ⟨s, hs⟩ := h n
    simp only [pollLoopAux, hs]
    split
    · simp
    · split
      · simp
      · exact ih (n + 1) e

/-- Error-freedom at the top of the loop. -/
theorem pollLoop_ne_errored (retrieve : Nat → Except String String) (poll maxWait : Nat)
    (h : ∀ n, ∃ s, retrieve n = .ok s) (e : String) :
    pollLoop retrieve poll maxWait ≠ LoopResult.errored e :=
  pollLoopAux_ne_errored retrieve poll maxWait h _ 0 e

/-- Reaching the first terminal status: when index k is the first terminal
poll and every earlier poll is within budget, the loop reports that status. -/
theorem pollLoopAux_terminal (retrieve : Nat → Except String String) (poll maxWait : Nat)
    (st : Nat → String) (hok : ∀ n, retrieve n = .ok (st n)) (k : Nat)
    (hterm : isTerminalStatus (st k) = true)
    (hpre : ∀ m, m < k → isTerminalStatus (st m) = false)
    (hbud : ∀ m, m < k → m * poll ≤ maxWait) :
    ∀ fuel j, j ≤ k → k - j < fuel →
      pollLoopAux retrieve poll maxWait j fuel = .terminal (st k) := by
  intro fuel
  induction fuel with
  | zero => intro j hj hf; omega
  | succ fuel ih =>
    intro j hj hf
    rcases Nat.lt_or_ge j k with hjk | hjk
    · have h1 := hpre j hjk
      have h2 := hbud j hjk
      simp only [pollLoopAux, hok j, h1]
      rw [if_neg (by simp), if_neg (by omega)]
      exact ih (j + 1) hjk (by omega)
    · have hjeq : j = k := Nat.le_antisymm hj hjk
      subst hjeq
      simp only [pollLoopAux, hok j, hterm]
      simp

/-- Top-level version of reaching the first terminal status, under a positive
poll interval. -/
theorem pollLoop_terminal (retrieve : Nat → Except String String) (poll maxWait : Nat)
    (st : Nat → String) (hok : ∀ n, retrieve n = .ok (st n)) (hpoll : 1 ≤ poll) (k : Nat)
    (hterm : isTerminalStatus (st k) = true)
    (hpre : ∀ m, m < k → isTerminalStatus (st m) = false)
    (hbud : ∀ m, m < k → m * poll ≤ maxWait) :
    pollLoop retrieve poll maxWait = .terminal (st k) := by
  apply pollLoopAux_terminal retrieve poll maxWait st hok k hterm hpre hbud _ 0 (Nat.zero_le k)
  rcases Nat.eq_zero_or_pos k with h0 | hpos
  · omega
  · have hb := hbud (k - 1) (by omega)
    have hk1 : (k - 1) * 1 ≤ (k - 1) * poll := Nat.mul_le_mul (Nat.le_refl (k - 1)) hpoll
    rw [Nat.mul_one] at hk1
    omega

/-- When no poll up to the first over-budget index is terminal, the loop
reports the local timeout. -/
theorem pollLoopAux_timeout (retrieve : Nat → Except String String) (poll maxWait : Nat)
    (st : Nat → String) (hok : ∀ n, retrieve n = .ok (st n)) (n : Nat)
    (hnt : ∀ m, m ≤ n → isTerminalStatus (st m) = false)
    (hover : n * poll > maxWait) :
    ∀ fuel j, j ≤ n → pollLoopAux retrieve poll maxWait j fuel = .timedOut := by
  intro fuel
  induction fuel with
  | zero => intro j hj; simp [pollLoopAux]
  | succ fuel ih =>
    intro j hj
    have h1 := hnt j hj
    simp only [pollLoopAux, hok j, h1]
    rw [if_neg (by simp)]
    by_cases hb : j * poll > maxWait
    · rw [if_pos hb]
    · rw [if_neg hb]
      apply ih (j + 1)
      have hjn : j < n := by
        by_contra hc
        push_neg at hc
        have := Nat.mul_le_mul hc (Nat.le_refl poll)
        omega
      omega

/-- Top-level version of the timeout case. -/
theorem pollLoop_timeout (retrieve : Nat → Except String String) (poll maxWait : Nat)
    (st : Nat → String) (hok : ∀ n, retrieve n = .ok (st n)) (n : Nat)
    (hnt : ∀ m, m ≤ n → isTerminalStatus (st m) = false)
    (hover : n * poll > maxWait) :
    pollLoop retrieve poll maxWait = .timedOut :=
  pollLoopAux_timeout retrieve poll maxWait st hok n hnt hover _ 0 (Nat.zero_le n)

/-! Lemmas reducing run_walter under fixed environment answers. -/

/-- run_walter when the poll loop ends on the completed status. -/
theorem run_walter_completed (cfg : Config) (env : Env) (message : String)
    (t r : Nat) (msgs : List Msg)
    (hkey : ¬(cfg.OPENAI_API_KEY = "" ∨ cfg.OPENAI_ASSISTANT_ID = ""))
    (hT : env.createThread = .ok t) (hM : env.createMessage t message = .ok ())
    (hR : env.createRun t = .ok r)
    (hp : pollLoop (env.retrieveRun t r) cfg.RUN_POLL_TICKS cfg.RUN_MAX_WAIT_TICKS =
          .terminal "completed")
    (hL : env.listMessages t = .ok msgs) :
    run_walter cfg env message =
      (.ok (lastAssistantReply msgs),
       [Event.threadCreated t, .messageCreated t message, .runCreated t r,
        .messagesListed t]) := by
  unfold run_walter
  rw [if_neg hkey]
  split
  · next e heq => rw [hT] at heq; exact absurd heq (by simp)
  · next tid heq =>
    rw [hT] at heq
    injection heq with h
    subst h
    split
    · next e heq2 => rw [hM] at heq2; exact absurd heq2 (by simp)
    · next u heq2 =>
      split
      · next e heq3 => rw [hR] at heq3; exact absurd heq3 (by simp)
      · next rid heq3 =>
        rw [hR] at heq3
        injection heq3 with h3
        subst h3
        split
        · next e heqp => rw [hp] at heqp; exact absurd heqp (by simp)
        · next heqp => rw [hp] at heqp; exact absurd heqp (by simp)
        · next s heqp =>
          rw [hp] at heqp
          injection heqp with hs
          subst hs
          rw [if_neg (by simp)]
          split
          · next e heq4 => rw [hL] at heq4; exact absurd heq4 (by simp)
          · next msgs2 heq4 =>
            rw [hL] at heq4
            injection heq4 with h4
            subst h4
            rfl

/-- run_walter when the poll loop times out locally. -/
theorem run_walter_timeout (cfg : Config) (env : Env) (message : String) (t r : Nat)
    (hkey : ¬(cfg.OPENAI_API_KEY = "" ∨ cfg.OPENAI_ASSISTANT_ID = ""))
    (hT : env.createThread = .ok t) (hM : env.createMessage t message = .ok ())
    (hR : env.createRun t = .ok r)
    (hp : pollLoop (env.retrieveRun t r) cfg.RUN_POLL_TICKS cfg.RUN_MAX_WAIT_TICKS =
          .timedOut) :
    run_walter cfg env message =
      (.ok "We’re sorry—something took too long. Please try again.",
       [Event.threadCreated t, .messageCreated t message, .runCreated t r]) := by
  unfold run_walter
  rw [if_neg hkey]
  split
  · next e heq => rw [hT] at heq; exact absurd heq (by simp)
  · next tid heq =>
    rw [hT] at heq
    injection heq with h
    subst h
    split
    · next e heq2 => rw [hM] at heq2; exact absurd heq2 (by simp)
    · next u heq2 =>
      split
      · next e heq3 => rw [hR] at heq3; exact absurd heq3 (by simp)
      · next rid heq3 =>
        rw [hR] at heq3
        injection heq3 with h3
        subst h3
        split
        · next e heqp => rw [hp] at heqp; exact absurd heqp (by simp)
        · rfl
        · next s heqp => rw [hp] at heqp; exact absurd heqp (by simp)

/-- run_walter when the poll loop ends on a terminal status other than
completed. -/
theorem run_walter_failed (cfg : Config) (env : Env) (message : String) (t r : Nat)
    (s : String)
    (hkey : ¬(cfg.OPENAI_API_KEY = "" ∨ cfg.OPENAI_ASSISTANT_ID = ""))
    (hT : env.createThread = .ok t) (hM : env.createMessage t message = .ok ())
    (hR : env.createRun t = .ok r)
    (hp : pollLoop (env.retrieveRun t r) cfg.RUN_POLL_TICKS cfg.RUN_MAX_WAIT_TICKS =
          .terminal s)
    (hs : s ≠ "completed") :
    run_walter cfg env message =
      (.ok "We’re sorry—something went wrong. Please try again.",
       [Event.threadCreated t, .messageCreated t message, .runCreated t r]) := by
  unfold run_walter
  rw [if_neg hkey]
  split
  · next e heq => rw [hT] at heq; exact absurd heq (by simp)
  · next tid heq =>
    rw [hT] at heq
    injection heq with h
    subst h
    split
    · next e heq2 => rw [hM] at heq2; exact absurd heq2 (by simp)
    · next u heq2 =>
      split
      · next e heq3 => rw [hR] at heq3; exact absurd heq3 (by simp)
      · next rid heq3 =>
        rw [hR] at heq3
        injection heq3 with h3
        subst h3
        split
        · next e heqp => rw [hp] at heqp; exact absurd heqp (by simp)
        · next heqp => rw [hp] at heqp; exact absurd heqp (by simp)
        · next s2 heqp =>
          rw [hp] at heqp
          injection heqp with hs2
          subst hs2
          rw [if_pos hs]

/-- run_walter never raises when all assistant operations succeed. -/
theorem run_walter_ok (cfg : Config) (env : Env) (message : String)
    (hT : ∃ t, env.createThread = .ok t)
    (hM : ∀ t s, env.createMessage t s = .ok ())
    (hR : ∀ t, ∃ r, env.createRun t = .ok r)
    (hS : ∀ t r n, ∃ s, env.retrieveRun t r n = .ok s)
    (hL : ∀ t, ∃ msgs, env.listMessages t = .ok msgs) :
    ∃ a, (run_walter cfg env message).1 = .ok a := by
  unfold run_walter
  by_cases hc : cfg.OPENAI_API_KEY = "" ∨ cfg.OPENAI_ASSISTANT_ID = ""
  · rw [if_pos hc]; exact ⟨_, rfl⟩
  · rw [if_neg hc]
    obtain ⟨t, ht⟩ := hT
    split
    · next e heq => rw [ht] at heq; exact absurd heq (by simp)
    · next tid heq =>
      rw [ht] at heq
      injection heq with h
      subst h
      split
      · next e heq2 => rw [hM t message] at heq2; exact absurd heq2 (by simp)
      · next u heq2 =>
        obtain ⟨r, hr⟩ := hR t
        split
        · next e heq3 => rw [hr] at heq3; exact absurd heq3 (by simp)
        · next rid heq3 =>
          rw [hr] at heq3
          injection heq3 with h3
          subst h3
          split
          · next e heqp =>
            exact absurd heqp (pollLoop_ne_errored _ _ _ (fun n => hS t r n) e)
          · exact ⟨_, rfl⟩
          · next s heqp =>
            split
            · exact ⟨_, rfl⟩
            · split
              · next e heq4 =>
                obtain ⟨msgs, hm⟩ := hL t
                rw [hm] at heq4
                exact absurd heq4 (by simp)
              · exact ⟨_, rfl⟩

/-! Trace lemmas: which thread receives the user message. -/

/-- The context builder performs no assistant-service calls: its trace holds
no message-created event. -/
theorem build_injected_context_msgfree (cfg : Config) (env : Env) (text : String)
    (t : Nat) (c : String) :
    Event.messageCreated t c ∉ (build_injected_context cfg env text).2 := by
  unfold build_injected_context
  dsimp only
  split
  · simp
  · split
    · simp
    · intro h
      simp only [creator_lookup, List.mem_singleton] at h
      exact Event.noConfusion h

/-- Every message-created event in a run_walter trace names the thread the
call itself created. -/
theorem run_walter_msg_thread (cfg : Config) (env : Env) (message : String)
    (t : Nat) (c : String)
    (h : Event.messageCreated t c ∈ (run_walter cfg env message).2) :
    env.createThread = .ok t := by
  unfold run_walter at h
  split at h
  · simp at h
  · split at h
    · simp at h
    · next tid heq =>
      split at h
      · simp at h
      · split at h
        · simp at h
          obtain ⟨h1, _⟩ := h
          subst h1
          exact heq
        · split at h
          · simp at h
            obtain ⟨h1, _⟩ := h
            subst h1
            exact heq
          · simp at h
            obtain ⟨h1, _⟩ := h
            subst h1
            exact heq
          · split at h
            · simp at h
              obtain ⟨h1, _⟩ := h
              subst h1
              exact heq
            · split at h
              · simp at h
                obtain ⟨h1, _⟩ := h
                subst h1
                exact heq
              · simp at h
                obtain ⟨h1, _⟩ := h
                subst h1
                exact heq

/-- Every message-created event in a webhook trace names the thread created
by that call. -/
theorem salesiq_webhook_msg_thread (cfg : Config) (env : Env) (p : Payload)
    (t : Nat) (c : String)
    (h : Event.messageCreated t c ∈ (salesiq_webhook cfg env p).2) :
    env.createThread = .ok t := by
  unfold salesiq_webhook at h
  dsimp only at h
  split at h
  · simp at h
  · split at h
    · next e ev2 heq =>
      simp only [List.mem_append] at h
      rcases h with h | h
      · exact absurd h (build_injected_context_msgfree cfg env _ t c)
      · have hev : ev2 = (run_walter cfg env
            (build_injected_context cfg env (extractedQuestion p)).1).2 :=
          (congrArg Prod.snd heq).symm
        rw [hev] at h
        exact run_walter_msg_thread cfg env _ t c h
    · next a ev2 heq =>
      simp only [List.mem_append] at h
      rcases h with h | h
      · exact absurd h (build_injected_context_msgfree cfg env _ t c)
      · have hev : ev2 = (run_walter cfg env
            (build_injected_context cfg env (extractedQuestion p)).1).2 :=
          (congrArg Prod.snd heq).symm
        rw [hev] at h
        exact run_walter_msg_thread cfg env _ t c h

/-! Claim theorems. -/

/-- C1, counterexample: the claim that no exception raised inside the
pipeline propagates past the webhook handler is false. With a fully
configured process and the payload question hi, an exception raised by the
create-thread call surfaces as the handler result instead of a fallback
answer: the handler and run_walter contain no exception handling around the
assistant-service calls. -/
theorem C1_cex_exception_propagates :
    (salesiq_webhook cfgOk envBoom payloadHi).1 = Except.error "boom" := rfl

/-- C1 (amended): failures of the lookup service, the configuration check,
the poll timeout, the run terminal-failure states and the empty-reply path
are all converted into fallback answers — whenever the five assistant-service
operations themselves do not raise, the handler returns a response for every
payload and every lookup-service behavior. Exceptions raised by the
assistant-service operations, however, propagate (see the counterexample). -/
theorem C1_amended_fallbacks_cover_all_but_assistant (cfg : Config) (env : Env)
    (payload : Payload)
    (hT : ∃ t, env.createThread = .ok t)
    (hM : ∀ t s, env.createMessage t s = .ok ())
    (hR : ∀ t, ∃ r, env.createRun t = .ok r)
    (hS : ∀ t r n, ∃ s, env.retrieveRun t r n = .ok s)
    (hL : ∀ t, ∃ msgs, env.listMessages t = .ok msgs) :
    ∃ resp, (salesiq_webhook cfg env payload).1 = .ok resp := by
  unfold salesiq_webhook
  dsimp only
  split
  · exact ⟨_, rfl⟩
  · obtain ⟨a, ha⟩ := run_walter_ok cfg env
      (build_injected_context cfg env (extractedQuestion payload)).1 hT hM hR hS hL
    split
    · next e ev2 heq =>
      have hx : (run_walter cfg env
          (build_injected_context cfg env (extractedQuestion payload)).1).1 =
          .error e := by rw [heq]
      rw [ha] at hx
      exact absurd hx (by simp)
    · exact ⟨_, rfl⟩

/-- C1, witness: a healthy assistant service with an unreachable lookup
service still produces a response. -/
theorem C1_witness_healthy_call :
    ∃ resp, (salesiq_webhook cfgOk envOk payloadHi).1 = Except.ok resp :=
  C1_amended_fallbacks_cover_all_but_assistant cfgOk envOk payloadHi ⟨0, rfl⟩
    (fun _ _ => rfl) (fun _ => ⟨0, rfl⟩) (fun _ _ _ => ⟨"completed", rfl⟩)
    (fun _ => ⟨msgsHello, rfl⟩)

/-- C2, counterexample: the response does not carry the answer under an
answer field. On the empty payload the handler returns status 200 with the
single body field reply, and the body has no answer key. -/
theorem C2_cex_reply_not_answer :
    (salesiq_webhook cfgOk envOk payloadEmpty).1 =
      Except.ok ⟨200, [("reply", fallbackReply)]⟩
    ∧ List.lookup "answer" [("reply", fallbackReply)] = none := ⟨rfl, rfl⟩

/-- C2 (amended): whenever the assistant-service operations succeed, the
response is HTTP 200 JSON with the answer under the reply field (not answer),
and the absent-question case returns HTTP 200 with the fixed human-readable
fallback string and performs no outbound call. -/
theorem C2_amended_reply_field (cfg : Config) (env : Env) (payload : Payload)
    (hT : ∃ t, env.createThread = .ok t)
    (hM : ∀ t s, env.createMessage t s = .ok ())
    (hR : ∀ t, ∃ r, env.createRun t = .ok r)
    (hS : ∀ t r n, ∃ s, env.retrieveRun t r n = .ok s)
    (hL : ∀ t, ∃ msgs, env.listMessages t = .ok msgs) :
    (∃ a, (salesiq_webhook cfg env payload).1 = .ok ⟨200, [("reply", a)]⟩)
    ∧ (extractedQuestion payload = "" →
        salesiq_webhook cfg env payload = (.ok ⟨200, [("reply", fallbackReply)]⟩, [])) := by
  constructor
  · unfold salesiq_webhook
    dsimp only
    split
    · exact ⟨_, rfl⟩
    · obtain ⟨a, ha⟩ := run_walter_ok cfg env
        (build_injected_context cfg env (extractedQuestion payload)).1 hT hM hR hS hL
      split
      · next e ev2 heq =>
        have hx : (run_walter cfg env
            (build_injected_context cfg env (extractedQuestion payload)).1).1 =
            .error e := by rw [heq]
        rw [ha] at hx
        exact absurd hx (by simp)
      · exact ⟨_, rfl⟩
  · intro hq
    unfold salesiq_webhook
    dsimp only
    rw [if_pos hq]

/-- C2, witness: the reply field is present on a healthy call, and the empty
payload gets the fixed fallback with status 200 and no outbound call. -/
theorem C2_witness_reply_field :
    (∃ a, (salesiq_webhook cfgOk envOk payloadHi).1 = Except.ok ⟨200, [("reply", a)]⟩)
    ∧ salesiq_webhook cfgOk envOk payloadEmpty =
        (Except.ok ⟨200, [("reply", fallbackReply)]⟩, []) :=
  ⟨(C2_amended_reply_field cfgOk envOk payloadHi ⟨0, rfl⟩ (fun _ _ => rfl)
      (fun _ => ⟨0, rfl⟩) (fun _ _ _ => ⟨"completed", rfl⟩) (fun _ => ⟨msgsHello, rfl⟩)).1,
   (C2_amended_reply_field cfgOk envOk payloadEmpty ⟨0, rfl⟩ (fun _ _ => rfl)
      (fun _ => ⟨0, rfl⟩) (fun _ _ _ => ⟨"completed", rfl⟩) (fun _ => ⟨msgsHello, rfl⟩)).2 rfl⟩

/-- C3, counterexample: two successive messages of the same conversation are
not submitted to the same remote thread. The handler keeps no conversation
mapping: each call creates a fresh thread, so with the remote service handing
out thread zero on the first create and thread one on the second, the same
payload is submitted to thread zero and then to thread one. -/
theorem C3_cex_distinct_threads :
    msgThreads (salesiq_webhook cfgOk envOk payloadHi).2 = [0]
    ∧ msgThreads (salesiq_webhook cfgOk envThread1 payloadHi).2 = [1]
    ∧ (0 : Nat) ≠ 1 := ⟨rfl, rfl, by decide⟩

/-- C3 (amended): every message is submitted to the thread freshly created by
its own call — there is no stored conversation-to-thread mapping and no reset
mechanism — so whenever the remote service allocates distinct thread ids to
the two create-thread calls, the two messages go to distinct threads. -/
theorem C3_amended_fresh_thread_per_call (cfg : Config) (env₁ env₂ : Env)
    (p₁ p₂ : Payload) (t₁ t₂ : Nat)
    (h1 : env₁.createThread = .ok t₁) (h2 : env₂.createThread = .ok t₂)
    (hne : t₁ ≠ t₂) :
    ∀ t c t' c', Event.messageCreated t c ∈ (salesiq_webhook cfg env₁ p₁).2 →
      Event.messageCreated t' c' ∈ (salesiq_webhook cfg env₂ p₂).2 → t ≠ t' := by
  intro t c t' c' hm1 hm2
  have e1 := salesiq_webhook_msg_thread cfg env₁ p₁ t c hm1
  have e2 := salesiq_webhook_msg_thread cfg env₂ p₂ t' c' hm2
  rw [h1] at e1
  rw [h2] at e2
  injection e1 with e1
  injection e2 with e2
  subst e1
  subst e2
  exact hne

/-- C3, witness: the concrete pair of calls from the counterexample seen
through the amended theorem. -/
theorem C3_witness_fresh_threads :
    Event.messageCreated 0 "current_time_cst: T0\n\nUSER_MESSAGE:\nhi"
      ∈ (salesiq_webhook cfgOk envOk payloadHi).2
    ∧ Event.messageCreated 1 "current_time_cst: T0\n\nUSER_MESSAGE:\nhi"
      ∈ (salesiq_webhook cfgOk envThread1 payloadHi).2
    ∧ (0 : Nat) ≠ 1 :=
  ⟨by decide, by decide,
   C3_amended_fresh_thread_per_call cfgOk envOk envThread1 payloadHi payloadHi 0 1
     rfl rfl (by decide) 0 "current_time_cst: T0\n\nUSER_MESSAGE:\nhi"
     1 "current_time_cst: T0\n\nUSER_MESSAGE:\nhi" (by decide) (by decide)⟩

/-- C4: the poll loop always terminates. A run whose status trace reaches
completed within the wall-clock budget yields the extracted reply; a run
whose trace is still non-terminal at the first poll past the budget yields
the timeout fallback text instead of blocking; and the local timeout outcome
is distinct from every remote terminal outcome. Elapsed time is the poll
index times the poll interval, matching one sleep per iteration. -/
theorem C4_run_orchestration_terminates (cfg : Config) (env : Env) (message : String)
    (st : Nat → String) (msgs : List Msg) (t r : Nat)
    (hkey : ¬(cfg.OPENAI_API_KEY = "" ∨ cfg.OPENAI_ASSISTANT_ID = ""))
    (hpoll : 1 ≤ cfg.RUN_POLL_TICKS)
    (hT : env.createThread = .ok t)
    (hM : env.createMessage t message = .ok ())
    (hR : env.createRun t = .ok r)
    (hS : ∀ n, env.retrieveRun t r n = .ok (st n))
    (hL : env.listMessages t = .ok msgs) :
    (∀ k, st k = "completed" → (∀ m, m < k → isTerminalStatus (st m) = false) →
      k * cfg.RUN_POLL_TICKS ≤ cfg.RUN_MAX_WAIT_TICKS →
      (run_walter cfg env message).1 = .ok (lastAssistantReply msgs))
    ∧ (∀ n, (∀ m, m ≤ n → isTerminalStatus (st m) = false) →
      n * cfg.RUN_POLL_TICKS > cfg.RUN_MAX_WAIT_TICKS →
      (run_walter cfg env message).1 =
        .ok "We’re sorry—something took too long. Please try again.")
    ∧ (∀ s, LoopResult.timedOut ≠ LoopResult.terminal s) := by
  refine ⟨?_, ?_, fun s => by simp⟩
  · intro k hck hpre hbud
    have hp : pollLoop (env.retrieveRun t r) cfg.RUN_POLL_TICKS cfg.RUN_MAX_WAIT_TICKS =
        .terminal "completed" := by
      have hterm : isTerminalStatus (st k) = true := by rw [hck]; rfl
      have hb : ∀ m, m < k → m * cfg.RUN_POLL_TICKS ≤ cfg.RUN_MAX_WAIT_TICKS := by
        intro m hm
        exact le_trans (Nat.mul_le_mul (Nat.le_of_lt hm) (Nat.le_refl _)) hbud
      have := pollLoop_terminal (env.retrieveRun t r) cfg.RUN_POLL_TICKS
        cfg.RUN_MAX_WAIT_TICKS st hS hpoll k hterm hpre hb
      rw [hck] at this
      exact this
    rw [run_walter_completed cfg env message t r msgs hkey hT hM hR hp hL]
  · intro n hnt hover
    have hp := pollLoop_timeout (env.retrieveRun t r) cfg.RUN_POLL_TICKS
      cfg.RUN_MAX_WAIT_TICKS st hS n hnt hover
    rw [run_walter_timeout cfg env message t r hkey hT hM hR hp]

/-- C4, witness: a run completing on the first poll returns the extracted
reply, and a run that never leaves in-progress returns the timeout text. -/
theorem C4_witness_completed_and_timeout :
    (run_walter cfgFast envOk "q").1 = Except.ok "Hello!"
    ∧ (run_walter cfgFast envNever "q").1 =
        Except.ok "We’re sorry—something took too long. Please try again." := by
  constructor
  · exact (C4_run_orchestration_terminates cfgFast envOk "q" (fun _ => "completed")
      msgsHello 0 0 (by decide) (by decide) rfl rfl rfl (fun n => rfl) rfl).1 0 rfl
      (fun m hm => absurd hm (Nat.not_lt_zero m)) (by decide)
  · exact (C4_run_orchestration_terminates cfgFast envNever "q" (fun _ => "inProgress")
      msgsHello 0 0 (by decide) (by decide) rfl rfl rfl (fun n => rfl) rfl).2.1 3
      (fun m _ => rfl) (by decide)

/-- C5, counterexample: the user-facing text after a remote terminal failure
is not identical to the text after a local timeout: the source uses the
phrase went wrong for the former and took too long for the latter. -/
theorem C5_cex_distinct_apologies :
    (run_walter cfgFast envFailed "q").1 =
      Except.ok "We’re sorry—something went wrong. Please try again."
    ∧ (run_walter cfgFast envNever "q").1 =
      Except.ok "We’re sorry—something took too long. Please try again."
    ∧ "We’re sorry—something went wrong. Please try again."
      ≠ "We’re sorry—something took too long. Please try again." :=
  ⟨rfl, rfl, by decide⟩

/-- C5 (amended): each of the two failure classes gets one fixed generic
apology: all three remote terminal-failure states produce the went-wrong
text, the local timeout produces the took-too-long text, and the two
user-facing texts differ. -/
theorem C5_amended_two_apologies (cfg : Config) (env : Env) (message : String)
    (st : Nat → String) (t r : Nat)
    (hkey : ¬(cfg.OPENAI_API_KEY = "" ∨ cfg.OPENAI_ASSISTANT_ID = ""))
    (hpoll : 1 ≤ cfg.RUN_POLL_TICKS)
    (hT : env.createThread = .ok t)
    (hM : env.createMessage t message = .ok ())
    (hR : env.createRun t = .ok r)
    (hS : ∀ n, env.retrieveRun t r n = .ok (st n)) :
    (∀ k, st k ∈ (["failed", "cancelled", "expired"] : List String) →
      (∀ m, m < k → isTerminalStatus (st m) = false) →
      (∀ m, m < k → m * cfg.RUN_POLL_TICKS ≤ cfg.RUN_MAX_WAIT_TICKS) →
      (run_walter cfg env message).1 =
        .ok "We’re sorry—something went wrong. Please try again.")
    ∧ (∀ n, (∀ m, m ≤ n → isTerminalStatus (st m) = false) →
      n * cfg.RUN_POLL_TICKS > cfg.RUN_MAX_WAIT_TICKS →
      (run_walter cfg env message).1 =
        .ok "We’re sorry—something took too long. Please try again.")
    ∧ "We’re sorry—something went wrong. Please try again."
      ≠ "We’re sorry—something took too long. Please try again." := by
  refine ⟨?_, ?_, by decide⟩
  · intro k hmem hpre hbud
    simp only [List.mem_cons, List.mem_singleton, List.not_mem_nil, or_false] at hmem
    have hterm : isTerminalStatus (st k) = true := by
      rcases hmem with h | h | h <;> rw [h] <;> rfl
    have hne : st k ≠ "completed" := by
      rcases hmem with h | h | h <;> rw [h] <;> decide
    have hp := pollLoop_terminal (env.retrieveRun t r) cfg.RUN_POLL_TICKS
      cfg.RUN_MAX_WAIT_TICKS st hS hpoll k hterm hpre hbud
    rw [run_walter_failed cfg env message t r (st k) hkey hT hM hR hp hne]
  · intro n hnt hover
    have hp := pollLoop_timeout (env.retrieveRun t r) cfg.RUN_POLL_TICKS
      cfg.RUN_MAX_WAIT_TICKS st hS n hnt hover
    rw [run_walter_timeout cfg env message t r hkey hT hM hR hp]

/-- C5, witness: a run failing at once produces the went-wrong text; a run
never leaving in-progress under the default budget produces the
took-too-long text. -/
theorem C5_witness_two_apologies :
    (run_walter cfgOk envFailed "q").1 =
      Except.ok "We’re sorry—something went wrong. Please try again."
    ∧ (run_walter cfgOk envNever "q").1 =
      Except.ok "We’re sorry—something took too long. Please try again." := by
  constructor
  · exact (C5_amended_two_apologies cfgOk envFailed "q" (fun _ => "failed") 0 0
      (by decide) (by decide) rfl rfl rfl (fun n => rfl)).1 0 (by decide)
      (fun m hm => absurd hm (Nat.not_lt_zero m)) (fun m hm => absurd hm (Nat.not_lt_zero m))
  · exact (C5_amended_two_apologies cfgOk envNever "q" (fun _ => "inProgress") 0 0
      (by decide) (by decide) rfl rfl rfl (fun n => rfl)).2.1 21 (fun m _ => rfl) (by decide)

/-- C6: the lookup client is guarded and total. When any of year, make or
model is not truthy in the extracted attributes, the context builder performs
no lookup call at all; when the outbound query errors, the client returns the
code five-thousand structure with count zero, empty matches and the error
diagnostic instead of raising; and every client invocation performs exactly
one outbound attempt. -/
theorem C6_lookup_guard_single_attempt (cfg : Config) (env : Env) :
    (∀ text, (optTruthy (extract_year_make_model_ignition text).year = false
        ∨ optTruthy (extract_year_make_model_ignition text).make = false
        ∨ optTruthy (extract_year_make_model_ignition text).model = false) →
      (build_injected_context cfg env text).2 = [])
    ∧ (∀ y m mo ig e,
        env.lookupGet cfg.CREATOR_BASE_URL (creatorParams cfg y m mo ig) = .error e →
        (creator_lookup cfg env y m mo ig).1 =
          Json.obj [("code", Json.num 5000),
                    ("result", Json.obj [("count", Json.num 0), ("matches", Json.arr []),
                                         ("error", Json.str e)])])
    ∧ (∀ y m mo ig, (creator_lookup cfg env y m mo ig).2 =
        [Event.httpGetAttempt cfg.CREATOR_BASE_URL (creatorParams cfg y m mo ig)]) := by
  refine ⟨?_, ?_, fun y m mo ig => rfl⟩
  · intro text hmiss
    unfold build_injected_context
    dsimp only
    split
    · rfl
    · split
      · rfl
      · next hcond =>
        exfalso
        simp only [Bool.not_eq_true, Bool.or_eq_false_iff, Bool.not_eq_false'] at hcond
        obtain ⟨⟨hy, hm⟩, hmo⟩ := hcond
        rcases hmiss with h | h | h <;> simp_all
  · intro y m mo ig e he
    unfold creator_lookup
    dsimp only
    rw [he]

/-- C6, witness: a wiring request with no extractable year produces no lookup
event; an erroring outbound query yields the embedded-diagnostic fallback;
and a lookup performs exactly one attempt. -/
theorem C6_witness_lookup :
    (build_injected_context cfgOk envOk "wiring diagram please").2 = []
    ∧ (creator_lookup cfgOk envOk "2022" "Toyota" "camry" (some "Push to Start")).1 =
        Json.obj [("code", Json.num 5000),
                  ("result", Json.obj [("count", Json.num 0), ("matches", Json.arr []),
                                       ("error", Json.str "offline")])]
    ∧ (creator_lookup cfgOk envOk "2022" "Toyota" "camry" none).2 =
        [Event.httpGetAttempt cfgOk.CREATOR_BASE_URL
          (creatorParams cfgOk "2022" "Toyota" "camry" none)] :=
  ⟨(C6_lookup_guard_single_attempt cfgOk envOk).1 "wiring diagram please"
      (Or.inl (by decide)),
   (C6_lookup_guard_single_attempt cfgOk envOk).2.1 "2022" "Toyota" "camry"
      (some "Push to Start") "offline" rfl,
   (C6_lookup_guard_single_attempt cfgOk envOk).2.2 "2022" "Toyota" "camry" none⟩

/-- C7, counterexample: the returned text is not in general the text
fragments joined by a newline, because the source strips surrounding
whitespace from the joined string: a single fragment with padding comes back
stripped. -/
theorem C7_cex_strip :
    lastAssistantReply [⟨"assistant", [⟨"text", "  hi  "⟩]⟩] = "hi"
    ∧ "hi" ≠ String.intercalate "\n" ["  hi  "] := ⟨rfl, by decide⟩

/-- C7 (amended): the extractor selects the first assistant message of the
newest-first page (that is, the most recent assistant message), joins the
text-typed fragments of that message in order with single newlines, strips
surrounding whitespace, skips non-text fragments, and returns the fixed
fallback when there is no assistant message or the stripped join is empty. -/
theorem C7_amended_reply_extraction (msgs : List Msg) :
    (msgs.find? (fun m => m.role == "assistant") = none →
      lastAssistantReply msgs = fallbackReply)
    ∧ (∀ mm, msgs.find? (fun m => m.role == "assistant") = some mm →
      lastAssistantReply msgs =
        (if pyStrip (String.intercalate "\n"
              ((mm.content.filter (fun c => c.ctype == "text")).map
                (fun c => c.textValue))) == "" then fallbackReply
         else pyStrip (String.intercalate "\n"
              ((mm.content.filter (fun c => c.ctype == "text")).map
                (fun c => c.textValue))))) := by
  induction msgs with
  | nil =>
    refine ⟨fun _ => rfl, fun mm h => ?_⟩
    simp [List.find?] at h
  | cons m rest ih =>
    by_cases hr : m.role == "assistant"
    · constructor
      · intro h
        rw [@List.find?_cons_of_pos _ (fun m => m.role == "assistant") m rest hr] at h
        exact absurd h (by simp)
      · intro mm h
        rw [@List.find?_cons_of_pos _ (fun m => m.role == "assistant") m rest hr] at h
        injection h with h
        subst h
        unfold lastAssistantReply
        rw [if_pos hr]
    · constructor
      · intro h
        rw [@List.find?_cons_of_neg _ (fun m => m.role == "assistant") m rest hr] at h
        unfold lastAssistantReply
        rw [if_neg hr]
        exact ih.1 h
      · intro mm h
        rw [@List.find?_cons_of_neg _ (fun m => m.role == "assistant") m rest hr] at h
        unfold lastAssistantReply
        rw [if_neg hr]
        exact ih.2 mm h

/-- C7, witness: on a page with one user message and one assistant message
holding two text fragments and one non-text fragment, the extractor returns
the two fragments joined by a newline. -/
theorem C7_witness_reply_extraction :
    lastAssistantReply
      [⟨"user", [⟨"text", "question"⟩]⟩,
       ⟨"assistant", [⟨"text", "A"⟩, ⟨"text", "B"⟩, ⟨"image_file", "ignored"⟩]⟩] = "A\nB" := by
  have h := (C7_amended_reply_extraction
      [⟨"user", [⟨"text", "question"⟩]⟩,
       ⟨"assistant", [⟨"text", "A"⟩, ⟨"text", "B"⟩, ⟨"image_file", "ignored"⟩]⟩]).2
      ⟨"assistant", [⟨"text", "A"⟩, ⟨"text", "B"⟩, ⟨"image_file", "ignored"⟩]⟩ (by decide)
  exact h.trans (by decide)

/-- C8: on the example input the extractor finds year 2022, make Toyota, the
model camry (which contains camry), and the push-to-start classification. -/
theorem C8_entity_extractor_example :
    extract_year_make_model_ignition "2022 Toyota Camry push to start wiring diagram" =
      ⟨some "2022", some "Toyota", some "camry", some "Push to Start"⟩
    ∧ pyIn "camry"
        ((extract_year_make_model_ignition
          "2022 Toyota Camry push to start wiring diagram").model.getD "") = true := by
  constructor
  · rfl
  · rfl

/-- C9: for any message whose lowercased text contains no wiring keyword, the
injected context is exactly the current timestamp plus the original message:
no vehicle-attribute fields are injected and the trace shows no lookup call. -/
theorem C9_no_wiring_plain_context (cfg : Config) (env : Env) (text : String)
    (h : is_wiring_request text = false) :
    build_injected_context cfg env text =
      ("current_time_cst: " ++ env.now ++ "\n\nUSER_MESSAGE:\n" ++ text, []) := by
  simp [build_injected_context, current_time_cst_iso, h]

/-- C9, witness: the greeting hello is not a wiring request and gets the
plain context with an empty trace. -/
theorem C9_witness_no_wiring :
    build_injected_context cfgOk envOk "hello" =
      ("current_time_cst: T0\n\nUSER_MESSAGE:\nhello", []) :=
  (C9_no_wiring_plain_context cfgOk envOk "hello" (by decide)).trans (by decide)

/-- C10: when no four-digit year token is found — the extracted year is
absent — the extractor returns an absent model, whatever else the text
contains. -/
theorem C10_no_year_no_model (text : String)
    (h : (extract_year_make_model_ignition text).year = none) :
    (extract_year_make_model_ignition text).model = none := by
  have hy : findYear (pyLower (pyStrip text)) = none := h
  simp [extract_year_make_model_ignition, hy, optTruthy]

/-- C10, witness: a make-and-model text without a year yields an absent year
and an absent model. -/
theorem C10_witness_no_year :
    (extract_year_make_model_ignition "toyota camry wiring diagram").year = none
    ∧ (extract_year_make_model_ignition "toyota camry wiring diagram").model = none :=
  ⟨by decide, C10_no_year_no_model "toyota camry wiring diagram" (by decide)⟩

end Walter
